import Mathlib

set_option autoImplicit false

/-!
Shallow embedding of `javascript/api_payload_display.js` from
sd-webui-api-payload-display, and proofs about its behaviour.

The JavaScript file ships two revisions of the script: an earlier fragment
(lines 1-31 of the concatenated source) and the current fragment
(lines 32-92).  Definitions below name which fragment and lines they embed.
-/

/-! ## Mode tag derivation and generate-button lookup (both fragments) -/

/-- Helper for JS `String.prototype.replace` with a string pattern and empty
replacement: remove the first occurrence of `pat` from `s`; if `pat` does not
occur, the list is returned unchanged. -/
def dropFirstOccur : List Char → List Char → List Char
  | [], _ => []
  | c :: rest, pat =>
      if pat.isPrefixOf (c :: rest) then (c :: rest).drop pat.length
      else c :: dropFirstOccur rest pat

/-- Embeds `pullButton.id.replace('-api-payload-pull', '')` (line 10 in the
first fragment, line 65 in the second).  JS `replace` with a string pattern
replaces only the first occurrence. -/
def deriveProcessType (id : String) : String :=
  String.mk (dropFirstOccur id.data ("-api-payload-pull").data)

/-- Embeds the selector ternary
`processType === 'txt2img' ? '#txt2img_generate' : '#img2img_generate'`
(lines 11-12 in the first fragment, lines 66-67 in the second). -/
def generateSelector (processType : String) : String :=
  if processType = "txt2img" then "#txt2img_generate" else "#img2img_generate"

/-! ## The polling bridge: `waitForData` (second fragment, lines 35-45) -/

/-- A handle returned by `setInterval`: its delay in milliseconds and whether
`clearInterval` has been called on it yet. -/
structure IntervalHandle where
  delayMs : Nat
  active : Bool
deriving DecidableEq, Repr

/-- The state of one `waitForData` promise: the captured baseline
(`const oldData = dataElement.value`), the promise's resolution, and the
interval started by `setInterval(..., 200)`. -/
structure PollState where
  oldData : String
  resolved : Option String
  interval : IntervalHandle
deriving DecidableEq, Repr

/-- Embeds the synchronous part of `waitForData` (lines 36-38, 43): capture
the field's current value as the baseline and start a 200ms interval;
the promise is still pending. -/
def waitForDataStart (fieldValue : String) : PollState :=
  { oldData := fieldValue, resolved := none, interval := { delayMs := 200, active := true } }

/-- Embeds one interval tick (lines 38-43): sample the field's current value;
if it differs from the baseline (JS `!=` on two textarea values is string
inequality), resolve the promise with the sampled value and clear the
interval.  A cleared interval no longer ticks. -/
def pollTick (current : String) (s : PollState) : PollState :=
  if s.interval.active then
    if current ≠ s.oldData then
      { s with resolved := some current, interval := { s.interval with active := false } }
    else s
  else s

/-- Run the interval over a trace of field values, one sample per 200ms tick. -/
def runPoll (s : PollState) : List String → PollState
  | [] => s
  | v :: vs => runPoll (pollTick v s) vs

/-! ## The observer callback body (second fragment, lines 81-83) -/

/-- State visible to the observer callback: the hidden payload field, the
`waitForData` promise if one has been armed, and how many times the pull
button has been clicked. -/
structure BridgeState where
  fieldValue : String
  poll : Option PollState
  pullClicks : Nat

/-- Embeds `const dataPromise = waitForData(payloadTextbox)` (line 81): the
Promise executor runs synchronously, capturing the baseline from the field's
current value. -/
def armPoll (s : BridgeState) : BridgeState :=
  { s with poll := some (waitForDataStart s.fieldValue) }

/-- Embeds `pullButton.click()` (line 82).  The host may react by writing a
new value into the hidden field; `write = some w` models such a write, `none`
models a host that has not written yet. -/
def clickPull (write : Option String) (s : BridgeState) : BridgeState :=
  { s with pullClicks := s.pullClicks + 1, fieldValue := write.getD s.fieldValue }

/-- Embeds the order of lines 81-82: the poll is armed first, then the pull
is clicked. -/
def observerBridgeAction (write : Option String) (s : BridgeState) : BridgeState :=
  clickPull write (armPoll s)

/-! ## The one-shot mutation observer

Second fragment, lines 77-86: the MutationObserver callback is declared as
`(_, observer) => ...`, so `observer` is the MutationObserver itself (the DOM
invokes the callback with the mutation list and the observer), and
`observer.disconnect()` succeeds.  A disconnected observer delivers no
further mutation batches. -/

structure Observer2State where
  connected : Bool
  /-- How many times the callback body ran: each run arms `waitForData`,
  clicks the pull button and attaches the render via `.then`. -/
  actions : Nat
deriving DecidableEq, Repr

/-- Embeds delivery of one mutation batch to the second fragment's observer:
the callback runs only while the observer is connected; it performs its
action and then disconnects itself (line 85). -/
def observer2Fire (s : Observer2State) : Observer2State :=
  if s.connected then { connected := false, actions := s.actions + 1 } else s

/-- Deliver `n` successive mutation batches to the second fragment's
observer. -/
def observer2Deliver (s : Observer2State) : Nat → Observer2State
  | 0 => s
  | n + 1 => observer2Deliver (observer2Fire s) n

/-- First fragment, lines 15-27: there the parameter list `(_, observer)`
sits on the *click listener* (line 15), not on the MutationObserver callback
(line 20), and the DOM invokes a click listener with the event as its only
argument, so `observer` is bound to `undefined`.  The callback therefore runs
`pullButton.click()` and then throws a TypeError at `observer.disconnect()`
(a property access on `undefined`); the exception is reported as an uncaught
error and the observer is never disconnected, so every further mutation batch
runs the callback again. -/
structure Observer1State where
  connected : Bool
  pullClicks : Nat
  uncaughtErrors : Nat
deriving DecidableEq, Repr

/-- Embeds delivery of one mutation batch to the first fragment's observer:
while connected, the callback clicks the pull button (line 24), then the
disconnect attempt on `undefined` throws (line 25), leaving the observer
connected. -/
def observer1Fire (s : Observer1State) : Observer1State :=
  if s.connected then
    { connected := true, pullClicks := s.pullClicks + 1,
      uncaughtErrors := s.uncaughtErrors + 1 }
  else s

/-- Deliver `n` successive mutation batches to the first fragment's
observer. -/
def observer1Deliver (s : Observer1State) : Nat → Observer1State
  | 0 => s
  | n + 1 => observer1Deliver (observer1Fire s) n

/-! ## The binder: `onUiUpdate` callback (second fragment, lines 56-91) -/

/-- A panel element matched by `querySelectorAll(".api-payload-display")`:
its DOM identity (panels are created once by the host template and never
destroyed) and the `id` of its `.api-payload-pull` button. -/
structure Panel where
  pid : Nat
  pullButtonId : String
deriving DecidableEq, Repr

/-- The document as seen by one `onUiUpdate` callback: the panels currently
matching `.api-payload-display`, and which selectors
`gradioApp().querySelector` finds an element for (the generate button may be
absent while the host is still rendering). -/
structure Env where
  panels : List Panel
  generatePresent : String → Bool

/-- The binder's mutable state: `registeredElements` (line 33) and, per
panel, how many click listeners the binder has attached to that panel's
generate button. -/
structure BinderState where
  registered : List Nat
  listeners : Nat → Nat

/-- The state at script load: an empty registration set, no listeners. -/
def binderInit : BinderState :=
  { registered := [], listeners := fun _ => 0 }

/-- Embeds one iteration of the `for (const panel of panels)` loop
(lines 60-90): skip a registered panel (line 61); derive the mode tag and
look up the generate button (lines 65-67); if the button is absent, skip
without registering (line 69); otherwise attach the click listener (line 71)
and add the panel to the registration set (line 89). -/
def processPanel (env : Env) (s : BinderState) (p : Panel) : BinderState :=
  if p.pid ∈ s.registered then s
  else if env.generatePresent (generateSelector (deriveProcessType p.pullButtonId)) then
    { registered := p.pid :: s.registered,
      listeners := fun q => if q = p.pid then s.listeners q + 1 else s.listeners q }
  else s

/-- Embeds one whole `onUiUpdate` callback (lines 56-91): process every
panel in document order.  (The `if (!panels) return` on line 58 never fires:
`querySelectorAll` returns a NodeList, which is never falsy.) -/
def onUiUpdateCallback (env : Env) (s : BinderState) : BinderState :=
  env.panels.foldl (processPanel env) s

/-- Run a sequence of UI-update callbacks, each against the document state
current at that moment. -/
def runCallbacks (s : BinderState) : List Env → BinderState
  | [] => s
  | e :: es => runCallbacks (onUiUpdateCallback e s) es

/-! ## The presenter: `updateJsonTree` (second fragment, lines 47-54)

The tree renderer itself is the vendored third-party `jsonTree` library,
which is not among the extracted source files; its two operations are
modelled from the spec's description of them. -/

/-- A rendered tree node: whether it is currently expanded, and its child
nodes (`node.childNodes` in the library's node objects). -/
inductive RNode where
  | node : Bool → List RNode → RNode

/-- The child nodes of a rendered node. -/
def RNode.childNodes : RNode → List RNode
  | .node _ cs => cs

/-- Whether a rendered node is expanded. -/
def RNode.expanded : RNode → Bool
  | .node e _ => e

/-- The structured data produced by `JSON.parse` on success. -/
inductive JsonValue where
  | null
  | bool (b : Bool)
  | num (n : Int)
  | str (s : String)
  | arr (xs : List JsonValue)
  | obj (fields : List (String × JsonValue))

mutual
/-- Modelled from the spec: the vendored `jsonTree` library's
"create tree from structured data into a container" operation
(`jsonTree.create(JSON.parse(data), wrapper)`, line 49), whose file is not
among the extracted sources.  It builds a node per value, children mirroring
the value's array elements or object fields, all initially collapsed. -/
def jsonTreeCreate : JsonValue → RNode
  | .null => .node false []
  | .bool _ => .node false []
  | .num _ => .node false []
  | .str _ => .node false []
  | .arr xs => .node false (jsonTreeCreateList xs)
  | .obj fs => .node false (jsonTreeCreateFields fs)

/-- Children of an array node, in element order. -/
def jsonTreeCreateList : List JsonValue → List RNode
  | [] => []
  | x :: xs => jsonTreeCreate x :: jsonTreeCreateList xs

/-- Children of an object node, in field order. -/
def jsonTreeCreateFields : List (String × JsonValue) → List RNode
  | [] => []
  | f :: fs => jsonTreeCreate f.2 :: jsonTreeCreateFields fs
end

/-- Embeds the predicate passed to `tree.expand` (lines 51-53):
`function (node) \x7b return node.childNodes.length < 2; \x7d`. -/
def expandFilter (n : RNode) : Bool :=
  n.childNodes.length < 2

mutual
/-- Modelled from the spec: the vendored `jsonTree` library's
"expand nodes matching predicate" operation (`tree.expand(...)`, line 51),
whose file is not among the extracted sources.  Per the spec it auto-expands
every node matching the predicate and leaves the rest as they are. -/
def treeExpand (pred : RNode → Bool) : RNode → RNode
  | .node e cs => .node (e || pred (.node e cs)) (treeExpandList pred cs)

/-- Expand matching nodes in each tree of a list. -/
def treeExpandList (pred : RNode → Bool) : List RNode → List RNode
  | [] => []
  | c :: cs => treeExpand pred c :: treeExpandList pred cs
end

/-- The `.api-payload-json-tree` wrapper region of a panel: the rendered
tree it currently shows, if any. -/
structure Wrapper where
  content : Option RNode

/-- Embeds `updateJsonTree` (lines 47-54).  `JSON.parse` is a host builtin;
it is passed in as `parse`, returning `Except.error` exactly when its input
is not syntactically valid JSON (in JS it throws a SyntaxError, which
propagates out of `updateJsonTree`).  On a parse error nothing after
`JSON.parse` runs, so no tree is created and the wrapper is not touched; on
success the tree is created into the wrapper — per the spec, replacing any
prior content — and then expanded through `expandFilter`. -/
def updateJsonTree (parse : String → Except String JsonValue)
    (wrapper : Wrapper) (data : String) : Except String Wrapper :=
  match parse data with
  | .error e => .error e
  | .ok v => .ok { content := some (treeExpand expandFilter (jsonTreeCreate v)) }

/-- A concrete stand-in parser used to instantiate witnesses: accepts only
the text `"ok"`. -/
def toyParse : String → Except String JsonValue :=
  fun s => if s = "ok" then .ok (.str "ok") else .error "SyntaxError"

/-! ## The copy-to-clipboard control

Modelled from the spec: the copy button's implementation is part of this
repository but not among the extracted source files.  Per the spec, on
activation the button attempts the clipboard write; on success the label
becomes "Copied!", the success visual state is applied and the fail visual
state cleared, and a 3000ms revert is scheduled that restores the idle label
and clears the success state while leaving the fail state untouched; on
failure the label becomes "Failed to copy", the success state is cleared and
the fail state applied, with no revert scheduled. -/

/-- The visible state of the copy button, plus the pending success-revert
timer (milliseconds remaining), if one is scheduled. -/
structure CopyState where
  label : String
  successClass : Bool
  failClass : Bool
  pendingRevert : Option Nat
deriving DecidableEq, Repr

/-- Modelled from the spec: one activation of the copy button, with
`outcome` true when the clipboard write succeeded and false when it was
rejected. -/
def copyActivate (outcome : Bool) (s : CopyState) : CopyState :=
  if outcome then
    { label := "Copied!", successClass := true, failClass := false,
      pendingRevert := some 3000 }
  else
    { label := "Failed to copy", successClass := false, failClass := true,
      pendingRevert := none }

/-- Modelled from the spec: let `ms` milliseconds pass.  If the scheduled
revert comes due, it restores the idle label and clears the success state,
leaving the fail state untouched; with no revert scheduled, nothing changes
on its own. -/
def copyElapse (idle : String) (ms : Nat) (s : CopyState) : CopyState :=
  match s.pendingRevert with
  | none => s
  | some t =>
      if t ≤ ms then
        { label := idle, successClass := false, failClass := s.failClass,
          pendingRevert := none }
      else
        { s with pendingRevert := some (t - ms) }

/-! ## Theorems -/

/-- A cleared interval never ticks again: once `clearInterval` has run, the
poll state is frozen. -/
theorem runPoll_inactive (s : PollState) (h : s.interval.active = false) :
    ∀ l : List String, runPoll s l = s
  | [] => rfl
  | v :: vs => by
      have ht : pollTick v s = s := by simp [pollTick, h]
      show runPoll (pollTick v s) vs = s
      rw [ht, runPoll_inactive s h vs]

/-- A tick that samples the baseline itself leaves the poll pending. -/
theorem pollTick_baseline (b : String) :
    pollTick b (waitForDataStart b) = waitForDataStart b := by
  simp [pollTick, waitForDataStart]

/-- C1: with the baseline captured at call time, `waitForData`'s interval
resolves the promise with exactly the field value sampled at the first tick
where that value differs from the baseline — a value that differs from the
baseline by hypothesis — and clears the 200ms interval at that moment;
while every sampled value still equals the baseline, the promise stays
unresolved and the interval keeps running. -/
theorem waitForData_resolves_first_change (baseline : String) :
    (∀ (pre : List String) (v : String) (post : List String),
        (∀ x ∈ pre, x = baseline) → v ≠ baseline →
        runPoll (waitForDataStart baseline) (pre ++ v :: post) =
          { oldData := baseline, resolved := some v,
            interval := { delayMs := 200, active := false } }) ∧
    (∀ trace : List String, (∀ x ∈ trace, x = baseline) →
        runPoll (waitForDataStart baseline) trace = waitForDataStart baseline) := by
  constructor
  · intro pre
    induction pre with
    | nil =>
        intro v post _ hv
        show runPoll (pollTick v (waitForDataStart baseline)) post = _
        have ht : pollTick v (waitForDataStart baseline) =
            { oldData := baseline, resolved := some v,
              interval := { delayMs := 200, active := false } } := by
          simp [pollTick, waitForDataStart, hv]
        rw [ht, runPoll_inactive _ rfl post]
    | cons x xs ih =>
        intro v post hpre hv
        have hx : x = baseline := hpre x (List.mem_cons_self x xs)
        show runPoll (pollTick x (waitForDataStart baseline)) (xs ++ v :: post) = _
        rw [hx, pollTick_baseline]
        exact ih v post (fun y hy => hpre y (List.mem_cons_of_mem x hy)) hv
  · intro trace
    induction trace with
    | nil => intro _; rfl
    | cons x xs ih =>
        intro hall
        have hx : x = baseline := hall x (List.mem_cons_self x xs)
        show runPoll (pollTick x (waitForDataStart baseline)) xs = _
        rw [hx, pollTick_baseline]
        exact ih (fun y hy => hall y (List.mem_cons_of_mem x hy))

/-- Witness for C1: baseline `""`, one baseline tick, then the field reads
`"newdata"`; the promise resolves with `"newdata"` and the interval is
cleared.  A trace of two baseline ticks leaves the promise pending. -/
theorem waitForData_resolves_first_change_witness :
    runPoll (waitForDataStart "") ["", "newdata"] =
      { oldData := "", resolved := some "newdata",
        interval := { delayMs := 200, active := false } } ∧
    runPoll (waitForDataStart "") ["", ""] = waitForDataStart "" :=
  ⟨(waitForData_resolves_first_change "").1 [""] "newdata" [] (by simp) (by decide),
   (waitForData_resolves_first_change "").2 ["", ""] (by simp)⟩

/-- C4: in every run of the observer's action (second fragment, lines
81-83), the poll is armed — with the baseline captured from the field value
as it is before the pull — strictly before `pullButton.click()` runs, so
even if the host answers the pull by writing `w` into the field
immediately, the armed poll's baseline is the old value and its very next
tick resolves with `w`: a change caused by the pull cannot be missed. -/
theorem observer_arms_poll_before_pull (s : BridgeState) (w : String)
    (hw : w ≠ s.fieldValue) :
    (observerBridgeAction (some w) s).poll = some (waitForDataStart s.fieldValue) ∧
    (observerBridgeAction (some w) s).pullClicks = s.pullClicks + 1 ∧
    runPoll (waitForDataStart s.fieldValue)
        [(observerBridgeAction (some w) s).fieldValue] =
      { oldData := s.fieldValue, resolved := some w,
        interval := { delayMs := 200, active := false } } := by
  refine ⟨rfl, rfl, ?_⟩
  show runPoll (pollTick _ _) [] = _
  simp [observerBridgeAction, clickPull, armPoll, runPoll, pollTick, waitForDataStart, hw]

/-- Witness for C4: an empty field, a pull that writes `"payload"`; the poll
armed before the pull resolves with `"payload"` on its first tick. -/
theorem observer_arms_poll_before_pull_witness :
    (observerBridgeAction (some "payload") ⟨"", none, 0⟩).poll =
      some (waitForDataStart "") ∧
    (observerBridgeAction (some "payload") ⟨"", none, 0⟩).pullClicks = 0 + 1 ∧
    runPoll (waitForDataStart "")
        [(observerBridgeAction (some "payload") ⟨"", none, 0⟩).fieldValue] =
      { oldData := "", resolved := some "payload",
        interval := { delayMs := 200, active := false } } :=
  observer_arms_poll_before_pull ⟨"", none, 0⟩ "payload" (by decide)

/-- A disconnected observer stays as it is: no further batch runs its
callback. -/
theorem observer2Deliver_disconnected (s : Observer2State)
    (h : s.connected = false) : ∀ n : Nat, observer2Deliver s n = s
  | 0 => rfl
  | n + 1 => by
      have ht : observer2Fire s = s := by simp [observer2Fire, h]
      show observer2Deliver (observer2Fire s) n = s
      rw [ht, observer2Deliver_disconnected s h n]

/-- Second fragment, lines 77-86: the observer armed by a generate click
performs its action at most once over any number of delivered mutation
batches, because its callback disconnects the observer on its first run. -/
theorem observer2_fires_at_most_once (n : Nat) :
    (observer2Deliver { connected := true, actions := 0 } n).actions ≤ 1 := by
  cases n with
  | zero => exact Nat.zero_le 1
  | succ m =>
      show (observer2Deliver (observer2Fire { connected := true, actions := 0 }) m).actions ≤ 1
      have hf : observer2Fire { connected := true, actions := 0 } =
          { connected := false, actions := 1 } := rfl
      rw [hf, observer2Deliver_disconnected { connected := false, actions := 1 } rfl m]

/-- C2 failing input, first fragment (lines 15-27): `observer` there names
the click listener's second parameter, which the DOM never supplies, so the
callback's `observer.disconnect()` throws after `pullButton.click()` and the
observer is never disconnected.  Two mutation batches after one generate
click produce two pull clicks (and two uncaught TypeErrors), with the
observer still connected — not at most one action. -/
theorem observer1_fires_on_every_mutation :
    observer1Deliver { connected := true, pullClicks := 0, uncaughtErrors := 0 } 2 =
      { connected := true, pullClicks := 2, uncaughtErrors := 2 } := rfl

/-- The binder's invariant: a panel in the registration set carries exactly
one click listener, a panel outside it carries none. -/
def ListenersInv (s : BinderState) : Prop :=
  ∀ pid : Nat, s.listeners pid = if pid ∈ s.registered then 1 else 0

/-- One loop iteration preserves the invariant: a registered panel is
skipped, an unregistered panel either gains exactly one listener together
with its registration, or is left untouched when its generate button is
absent. -/
theorem processPanel_inv (env : Env) (s : BinderState) (p : Panel)
    (h : ListenersInv s) : ListenersInv (processPanel env s p) := by
  intro q
  unfold processPanel
  by_cases h1 : p.pid ∈ s.registered
  · simp only [if_pos h1]
    exact h q
  · simp only [if_neg h1]
    by_cases h2 :
        env.generatePresent (generateSelector (deriveProcessType p.pullButtonId)) = true
    · simp only [if_pos h2]
      by_cases h3 : q = p.pid
      · subst h3
        simp [h p.pid, h1]
      · simp [h3, h q]
    · simp only [if_neg h2]
      exact h q

/-- The whole panel loop preserves the invariant. -/
theorem panelLoop_inv (env : Env) : ∀ (l : List Panel) (s : BinderState),
    ListenersInv s → ListenersInv (l.foldl (processPanel env) s)
  | [], _, h => h
  | p :: ps, s, h => panelLoop_inv env ps _ (processPanel_inv env s p h)

/-- Any sequence of UI-update callbacks preserves the invariant. -/
theorem runCallbacks_inv : ∀ (envs : List Env) (s : BinderState),
    ListenersInv s → ListenersInv (runCallbacks s envs)
  | [], _, h => h
  | e :: es, s, h => runCallbacks_inv es _ (panelLoop_inv e e.panels s h)

/-- C3: starting from script load, over any sequence of UI-update callbacks
— whatever panels each one sees and whatever generate buttons are present —
the binder attaches at most one click listener per panel: once a panel is in
the registration set, later callbacks skip it without re-wiring. -/
theorem binder_attaches_at_most_one_listener (envs : List Env) (pid : Nat) :
    (runCallbacks binderInit envs).listeners pid ≤ 1 := by
  have hinit : ListenersInv binderInit := by
    intro q
    simp [binderInit]
  have h := runCallbacks_inv envs binderInit hinit pid
  rw [h]
  split <;> omega

/-- C7: an unregistered panel whose mode's generate control is absent from
the document is skipped silently — the binder state is unchanged, so no
listener is attached and the panel is not added to the registration set —
and the next UI-update callback in which the control is present wires the
panel: it attaches exactly one listener and registers it. -/
theorem binder_skips_missing_generate (env env2 : Env) (s : BinderState)
    (p : Panel) (hreg : p.pid ∉ s.registered)
    (habsent : env.generatePresent
        (generateSelector (deriveProcessType p.pullButtonId)) = false)
    (hpresent : env2.generatePresent
        (generateSelector (deriveProcessType p.pullButtonId)) = true) :
    processPanel env s p = s ∧
    (processPanel env2 (processPanel env s p) p).listeners p.pid =
      s.listeners p.pid + 1 ∧
    p.pid ∈ (processPanel env2 (processPanel env s p) p).registered := by
  have h1 : processPanel env s p = s := by
    simp [processPanel, hreg, habsent]
  refine ⟨h1, ?_, ?_⟩ <;> rw [h1] <;> simp [processPanel, hreg, hpresent]

/-- Witness for C7: one txt2img panel, a document with no generate buttons,
then a document where they exist; the first callback leaves the initial
state untouched, the second attaches the one listener and registers. -/
theorem binder_skips_missing_generate_witness :
    processPanel { panels := [], generatePresent := fun _ => false } binderInit
        { pid := 0, pullButtonId := "txt2img-api-payload-pull" } = binderInit ∧
    (processPanel { panels := [], generatePresent := fun _ => true }
        (processPanel { panels := [], generatePresent := fun _ => false } binderInit
          { pid := 0, pullButtonId := "txt2img-api-payload-pull" })
        { pid := 0, pullButtonId := "txt2img-api-payload-pull" }).listeners 0 =
      binderInit.listeners 0 + 1 ∧
    0 ∈ (processPanel { panels := [], generatePresent := fun _ => true }
        (processPanel { panels := [], generatePresent := fun _ => false } binderInit
          { pid := 0, pullButtonId := "txt2img-api-payload-pull" })
        { pid := 0, pullButtonId := "txt2img-api-payload-pull" }).registered :=
  binder_skips_missing_generate _ _ binderInit _ (by simp [binderInit]) rfl rfl

/-- The sample tree of the spec's test scenario: a root with exactly one
child, that child having three children. -/
def sampleChild : RNode :=
  .node false [.node false [], .node false [], .node false []]

/-- Root of the sample tree. -/
def sampleRoot : RNode :=
  .node false [sampleChild]

/-- C5: the predicate handed to `tree.expand` returns true for exactly the
nodes with fewer than two immediate children; on the sample tree whose root
has one child and whose child has three children, expansion expands the root
and leaves the child level collapsed. -/
theorem expand_predicate_two_children_cutoff :
    (∀ n : RNode, expandFilter n = true ↔ n.childNodes.length < 2) ∧
    (treeExpand expandFilter sampleRoot).expanded = true ∧
    ∀ c ∈ (treeExpand expandFilter sampleRoot).childNodes, c.expanded = false := by
  refine ⟨fun n => ?_, ?_, ?_⟩
  · simp [expandFilter]
  · simp [sampleRoot, sampleChild, treeExpand, treeExpandList, expandFilter, RNode.expanded,
      RNode.childNodes]
  · intro c hc
    simp [sampleRoot, sampleChild, treeExpand, treeExpandList, expandFilter,
      RNode.childNodes] at hc
    simp [hc, RNode.expanded]

/-- C6: `updateJsonTree` is gated on the parse.  When the resolved text is
not syntactically valid JSON the parse error propagates out unchanged and
the render step never runs — no tree is created, no wrapper content is
produced; when the text parses, the render proceeds and the wrapper shows
the freshly created, predicate-expanded tree. -/
theorem updateJsonTree_parse_gate (parse : String → Except String JsonValue)
    (w : Wrapper) (data : String) :
    (∀ e : String, parse data = .error e →
        updateJsonTree parse w data = .error e) ∧
    (∀ v : JsonValue, parse data = .ok v →
        updateJsonTree parse w data =
          .ok { content := some (treeExpand expandFilter (jsonTreeCreate v)) }) := by
  constructor <;> intro x hx <;> simp [updateJsonTree, hx]

/-- Witness for C6: under the stand-in parser, the invalid text `"notjson"`
propagates the parse error and the valid text `"ok"` renders its tree. -/
theorem updateJsonTree_parse_gate_witness :
    updateJsonTree toyParse { content := none } "notjson" = .error "SyntaxError" ∧
    updateJsonTree toyParse { content := none } "ok" =
      .ok { content := some (treeExpand expandFilter (jsonTreeCreate (.str "ok"))) } :=
  ⟨(updateJsonTree_parse_gate toyParse { content := none } "notjson").1
      "SyntaxError" rfl,
   (updateJsonTree_parse_gate toyParse { content := none } "ok").2 (.str "ok") rfl⟩

/-- C9: a second render into the same wrapper region fully replaces the
first.  Whatever the wrapper held after the first render, after a second
successful render it holds exactly the tree freshly created from the second
payload — nothing of the first render remains. -/
theorem rerender_replaces_content (parse : String → Except String JsonValue)
    (w w2 w3 : Wrapper) (d1 d2 : String) (v2 : JsonValue)
    (h1 : updateJsonTree parse w d1 = .ok w2)
    (h2 : updateJsonTree parse w2 d2 = .ok w3)
    (hp : parse d2 = .ok v2) :
    w3 = { content := some (treeExpand expandFilter (jsonTreeCreate v2)) } := by
  rw [updateJsonTree, hp] at h2
  exact (Except.ok.injEq _ _).mp h2 |>.symm

/-- Witness for C9: render `"list"` and then `"ok"` through the stand-in
parser; the wrapper after the second render is exactly the fresh tree of
`"ok"`. -/
theorem rerender_replaces_content_witness :
    ({ content := some (treeExpand expandFilter (jsonTreeCreate (.str "ok"))) } : Wrapper) =
      { content := some (treeExpand expandFilter (jsonTreeCreate (.str "ok"))) } :=
  rerender_replaces_content toyParse { content := none }
    { content := some (treeExpand expandFilter (jsonTreeCreate (.str "ok"))) }
    { content := some (treeExpand expandFilter (jsonTreeCreate (.str "ok"))) }
    "ok" "ok" (.str "ok") rfl rfl rfl

/-- C8: on activation of the copy button, a successful clipboard write sets
the label to "Copied!" with the success state applied and the fail state
cleared, and once the 3000ms revert elapses the label is back to the idle
prompt with the success state cleared; a rejected clipboard write sets the
label to "Failed to copy" with the fail state applied, and no amount of
elapsed time ever reverts that state on its own. -/
theorem copy_button_state_transitions (idle : String) (s : CopyState) :
    ((copyActivate true s).label = "Copied!" ∧
     (copyActivate true s).successClass = true ∧
     (copyActivate true s).failClass = false ∧
     copyElapse idle 3000 (copyActivate true s) =
       { label := idle, successClass := false, failClass := false,
         pendingRevert := none }) ∧
    ((copyActivate false s).label = "Failed to copy" ∧
     (copyActivate false s).failClass = true ∧
     ∀ ms : Nat, copyElapse idle ms (copyActivate false s) = copyActivate false s) := by
  refine ⟨⟨rfl, rfl, rfl, ?_⟩, rfl, rfl, fun ms => ?_⟩ <;>
    simp [copyActivate, copyElapse]

/-- C10: the mode-to-generate-control mapping is the bare two-way ternary:
a derived tag equal to `txt2img` selects `#txt2img_generate`, and every
other derived tag — however unexpected or malformed the pull-button
identifier — selects `#img2img_generate`; no validation rejects unknown
tags. -/
theorem mode_mapping_two_way_branch (id : String) :
    (deriveProcessType id = "txt2img" →
        generateSelector (deriveProcessType id) = "#txt2img_generate") ∧
    (deriveProcessType id ≠ "txt2img" →
        generateSelector (deriveProcessType id) = "#img2img_generate") := by
  constructor <;> intro h <;> simp [generateSelector, h]

/-- Witness for C10: the txt2img pull button id maps to the txt2img
generate button, and a malformed id whose derived tag is not `txt2img`
falls through to the img2img generate button. -/
theorem mode_mapping_two_way_branch_witness :
    generateSelector (deriveProcessType "txt2img-api-payload-pull") =
      "#txt2img_generate" ∧
    generateSelector (deriveProcessType "totally-unexpected") =
      "#img2img_generate" :=
  ⟨(mode_mapping_two_way_branch "txt2img-api-payload-pull").1 (by decide),
   (mode_mapping_two_way_branch "totally-unexpected").2 (by decide)⟩

/-- Witness for C5: the sample root's single child — the node with three
children — is left collapsed by the expansion. -/
theorem expand_predicate_two_children_cutoff_witness :
    (treeExpand expandFilter sampleChild).expanded = false :=
  expand_predicate_two_children_cutoff.2.2 (treeExpand expandFilter sampleChild)
    (by simp [sampleRoot, treeExpand, treeExpandList, RNode.childNodes])
